import Mathlib

/-!
Verification of the RocketChat notification callback plugin
(`src/rocketchat.py`).  The plugin observes three lifecycle events of an
orchestrated run (playbook start, play start, final stats), renders each
into a chat message and delivers it with a single HTTP POST to a webhook.

Shallow embedding conventions:
* Python `None` is `Option.none`; a missing dict key of an attachment is a
  `none` field of the `Attachment` structure.
* External collaborators that the plugin calls but does not define
  (`json.dumps`, `ansible.module_utils.urls.open_url`, `os.path.basename`,
  `os.path.abspath`, the `prettytable` renderer) are parameters, collected
  in `Externals`; a fallible one returns `Except` (an `Except.error` is a
  raised Python exception).
* `str.join` of Python is `pyJoin`; `'%s' % x` on an optional value is
  `pyStr`.
* Machine state (`self.…` attributes) is the `CallbackModule` structure,
  threaded explicitly; warnings written through `self._display.warning`
  and HTTP requests issued through `open_url` are collected in result
  structures so that theorems can count them.
-/

namespace RocketChat

/-- Python `'%s' % x` where `x` is a value that may be `None`. -/
def pyStr : Option String → String
  | some s => s
  | none => "None"

/-- Python `sep.join(l)`: empty string for `[]`, no separator around a
single element. -/
def pyJoin (sep : String) : List String → String
  | [] => ""
  | [a] => a
  | a :: b :: t => a ++ sep ++ pyJoin sep (b :: t)

/-- One host's counters as returned by `stats.summarize(h)` (line 245). -/
structure Summary where
  ok : Nat
  changed : Nat
  unreachable : Nat
  failures : Nat
  rescued : Nat
  ignored : Nat
deriving Repr, DecidableEq

/-- The fields the plugin reads from `context.CLIARGS` (lines 179-196).
`remote_user` may be `None`. -/
structure CLIArgs where
  tags : List String
  skip_tags : List String
  extra_vars : List String
  subset : String
  inventory : List String
  remote_user : Option String
deriving Repr, DecidableEq

/-- The `stats` argument of `v2_playbook_on_stats`: its processed-host
keys and its `summarize` method (an external object of the host). -/
structure AnsibleStats where
  processed : List String
  summarize : String → Summary

/-- One entry of an attachment's `fields` list (lines 207-211). -/
structure Field where
  value : String
deriving Repr, DecidableEq

/-- One attachment dict.  `text` and `fields` are `none` when the dict
carries no such key. -/
structure Attachment where
  fallback : String
  text : Option String
  fields : Option (List Field)
  color : String
  mrkdwn_in : List String
deriving Repr, DecidableEq

/-- The JSON payload built in `send_msg` (lines 151-158). -/
structure Payload where
  username : String
  channel : String
  icon_url : String
  icon_emoji : String
  attachments : List Attachment
  parse : String
deriving Repr, DecidableEq

/-- One call of `open_url` (line 164).  `url` is `self.webhook_url`, which
may be Python `None`.  `open_url` issues a POST when `data` is given and
verifies TLS certificates by default; the plugin passes no
`validate_certs` argument, so the field records the default `true`. -/
structure HttpRequest where
  url : Option String
  data : String
  headers : List (String × String)
  method : String
  validate_certs : Bool
deriving Repr, DecidableEq

/-- The values the host's configuration layer hands to `set_options`
(`get_option` results, lines 131-137).  `webhook_url` is `none` when the
option resolves to Python `None`. -/
structure Options where
  webhook_url : Option String
  channel : String
  username : String
  icon_url : String
  icon_emoji : String
  validate_certs : Bool
deriving Repr, DecidableEq

/-- Plugin state right after `__init__` (lines 110-125), before
`set_options` has populated the option attributes. -/
structure PreState where
  guid : String
  disabled : Bool
  playbook_name : Option String
deriving Repr, DecidableEq

/-- Plugin state after `set_options`: all `self.…` attributes. -/
structure CallbackModule where
  disabled : Bool
  playbook_name : Option String
  guid : String
  webhook_url : Option String
  channel : String
  username : String
  show_invocation : Bool
  validate_certs : Bool
  icon_emoji : String
  icon_url : String
deriving Repr, DecidableEq

/-- External collaborators: `json.dumps`, `open_url`, `os.path.basename`,
`os.path.abspath` and the prettytable rendering of a list of rows. -/
structure Externals where
  dumps : Payload → Except String String
  openUrl : HttpRequest → Except String String
  basename : String → String
  abspath : String → String
  renderTable : List (List String) → String

/-- The three lifecycle events, with the ambient `context.CLIARGS` at
run-start time (`none` models an empty/absent `CLIARGS`). -/
inductive Event where
  | runStart (fileName : String) (cliargs : Option CLIArgs)
  | playStart (name : String) (uuid : String)
  | stats (s : AnsibleStats)

/-- What one event produced: the successor state, the attachments handed
to `send_msg`, the warnings logged and the HTTP requests issued. -/
structure EventResult where
  st : CallbackModule
  attachments : List Attachment
  warnings : List String
  requests : List HttpRequest
deriving Repr, DecidableEq

/-! ### `__init__` and `set_options` (lines 110-144) -/

/-- Lines 110-125: construction.  `CallbackBase.__init__` starts with
`disabled = False`; a missing `prettytable` disables the plugin with a
warning; the 6-character `guid` is drawn once (modelled as an argument,
the truncated random hex string). -/
def init (has_prettytable : Bool) (guid : String) : PreState × List String :=
  if has_prettytable then
    ({ guid := guid, disabled := false, playbook_name := none }, [])
  else
    ({ guid := guid, disabled := true, playbook_name := none },
     ["The prettytable python module is not installed. Disabling the RocketChat callback plugin."])

/-- Lines 127-144: option resolution.  Copies each resolved option into an
attribute, derives `show_invocation` from verbosity, and disables the
plugin with one warning when `webhook_url` is Python `None` (the test on
line 139 is `is None`; an empty string passes it). -/
def set_options (pre : PreState) (opts : Options) (verbosity : Nat) :
    CallbackModule × List String :=
  let st : CallbackModule :=
    { disabled := pre.disabled
      playbook_name := pre.playbook_name
      guid := pre.guid
      webhook_url := opts.webhook_url
      channel := opts.channel
      username := opts.username
      show_invocation := verbosity > 1
      validate_certs := opts.validate_certs
      icon_emoji := opts.icon_emoji
      icon_url := opts.icon_url }
  match st.webhook_url with
  | none =>
      ({ st with disabled := true },
       ["Slack Webhook URL was not provided. The Slack Webhook URL can be provided using the SLACK_WEBHOOK_URL environment variable."])
  | some _ => (st, [])

/-! ### `send_msg` (lines 146-168) -/

/-- Lines 151-158: the payload dict. -/
def mk_payload (st : CallbackModule) (attachments : List Attachment) : Payload :=
  { username := st.username
    channel := st.channel
    icon_url := st.icon_url
    icon_emoji := st.icon_emoji
    attachments := attachments
    parse := "none" }

/-- Lines 147-149 and 164: the request `open_url` receives.  The plugin
passes only url, data and headers; `open_url` defaults to a POST for
non-empty data and to `validate_certs=True`. -/
def mk_request (st : CallbackModule) (data : String) : HttpRequest :=
  { url := st.webhook_url
    data := data
    headers := [("Content-type", "application/json")]
    method := "POST"
    validate_certs := true }

/-- Warnings logged and requests issued by one `send_msg` call. -/
structure SendOutcome where
  warnings : List String
  requests : List HttpRequest
deriving Repr, DecidableEq

/-- Lines 146-168.  `json.dumps` runs before the `try` block, so a
serialization error propagates; `open_url` (and the response read) run
inside it, so their errors end in a warning. -/
def send_msg (ext : Externals) (st : CallbackModule) (attachments : List Attachment) :
    Except String SendOutcome :=
  match ext.dumps (mk_payload st attachments) with
  | Except.error e => Except.error e
  | Except.ok data =>
      let req := mk_request st data
      match ext.openUrl req with
      | Except.ok _ => Except.ok { warnings := [], requests := [req] }
      | Except.error e =>
          Except.ok
            { warnings := ["Could not submit message to RocketChat: " ++ e]
              requests := [req] }

/-! ### `v2_playbook_on_start` (lines 170-216) -/

/-- Lines 183-194: the monospaced invocation block's lines.  The
`Inventory` line is appended unconditionally; the other four lines are
guarded by Python truthiness (and `tags != ['all']`). -/
def invocation_items (abspath : String → String) (c : CLIArgs) : List String :=
  ["Inventory:  " ++ pyJoin ", " (c.inventory.map abspath)]
    ++ (if c.tags ≠ [] ∧ c.tags ≠ ["all"] then
          ["Tags:       " ++ pyJoin ", " c.tags] else [])
    ++ (if c.skip_tags ≠ [] then
          ["Skip Tags:  " ++ pyJoin ", " c.skip_tags] else [])
    ++ (if c.subset ≠ "" then
          ["Limit:      " ++ c.subset] else [])
    ++ (if c.extra_vars ≠ [] then
          ["Extra Vars: " ++ pyJoin " " c.extra_vars] else [])

/-- Line 178's guard applied to the invocation block: items exist only
when `context.CLIARGS` is truthy and `show_invocation` holds. -/
def run_start_invocation (abspath : String → String) (show_invocation : Bool)
    (cliargs : Option CLIArgs) : List String :=
  match cliargs with
  | none => []
  | some c => if show_invocation then invocation_items abspath c else []

/-- Lines 173-198: the `title` list.  Under the same guard as the
invocation block, `by *<remote_user>*` is appended (line 196) even when
`remote_user` is `None`; the playbook line is appended last. -/
def run_start_title (guid : String) (show_invocation : Bool)
    (cliargs : Option CLIArgs) (playbook_name : String) : List String :=
  (["*Playbook initiated* (_" ++ guid ++ "_)"]
      ++ (match cliargs with
          | none => []
          | some c =>
              if show_invocation then ["by *" ++ pyStr c.remote_user ++ "*"] else []))
    ++ ["\n\n*" ++ playbook_name ++ "*"]

/-- Lines 199-203: the composed run-start message. -/
def run_start_msg (abspath : String → String) (guid : String)
    (show_invocation : Bool) (cliargs : Option CLIArgs) (playbook_name : String) :
    String :=
  let inv := run_start_invocation abspath show_invocation cliargs
  let msg_items :=
    [pyJoin " " (run_start_title guid show_invocation cliargs playbook_name)]
      ++ (if inv = [] then [] else ["```\n" ++ pyJoin "\n" inv ++ "\n```"])
  pyJoin "\n" msg_items

/-- Lines 205-214: the single run-start attachment. -/
def run_start_attachments (abspath : String → String) (guid : String)
    (show_invocation : Bool) (cliargs : Option CLIArgs) (playbook_name : String) :
    List Attachment :=
  let msg := run_start_msg abspath guid show_invocation cliargs playbook_name
  [{ fallback := msg
     text := none
     fields := some [{ value := msg }]
     color := "warning"
     mrkdwn_in := ["text", "fallback", "fields"] }]

/-- Lines 170-216: sets `playbook_name` from the file's basename and
builds the attachments. -/
def v2_playbook_on_start (ext : Externals) (st : CallbackModule)
    (fileName : String) (cliargs : Option CLIArgs) :
    CallbackModule × List Attachment :=
  let name := ext.basename fileName
  let st' := { st with playbook_name := some name }
  (st', run_start_attachments ext.abspath st'.guid st'.show_invocation cliargs name)

/-! ### `v2_playbook_on_play_start` (lines 218-231) -/

/-- Lines 221-222: `play.name or 'Play name not specified (%s)' % play._uuid`
(an absent or empty name is falsy) and the message. -/
def play_start_msg (guid : String) (name : String) (uuid : String) : String :=
  let name' := if name = "" then "Play name not specified (" ++ uuid ++ ")" else name
  "*Starting play* (_" ++ guid ++ "_)\n\n*" ++ name' ++ "*"

/-- Lines 223-230: the single play-start attachment (text key, no fields
key). -/
def play_start_attachments (guid : String) (name : String) (uuid : String) :
    List Attachment :=
  let msg := play_start_msg guid name uuid
  [{ fallback := msg
     text := some msg
     fields := none
     color := "warning"
     mrkdwn_in := ["text", "fallback", "fields"] }]

def v2_playbook_on_play_start (st : CallbackModule) (name : String) (uuid : String) :
    CallbackModule × List Attachment :=
  (st, play_start_attachments st.guid name uuid)

/-! ### `v2_playbook_on_stats` (lines 233-281) -/

/-- Line 236: `sorted(stats.processed.keys())`. -/
def stats_hosts (s : AnsibleStats) : List String :=
  List.insertionSort (· ≤ ·) s.processed

/-- Lines 241-250: the loop's two flags, folded over the sorted hosts. -/
def stats_flags (s : AnsibleStats) : Bool × Bool :=
  (stats_hosts s).foldl
    (fun fl h =>
      let sm := s.summarize h
      (fl.1 || decide (0 < sm.failures), fl.2 || decide (0 < sm.unreachable)))
    (false, false)

/-- Line 259's condition `failures or unreachable`. -/
def stats_failed (s : AnsibleStats) : Bool :=
  (stats_flags s).1 || (stats_flags s).2

/-- Lines 252-253: the rows handed to prettytable, one per sorted host. -/
def stats_rows (s : AnsibleStats) : List (List String) :=
  (stats_hosts s).map fun h =>
    let sm := s.summarize h
    [h, toString sm.ok, toString sm.changed, toString sm.unreachable,
     toString sm.failures, toString sm.rescued, toString sm.ignored]

/-- Lines 259-264: the attachment color. -/
def stats_color (s : AnsibleStats) : String :=
  if stats_failed s then "danger" else "good"

/-- Lines 256-266: the message items (title, header line, rendered table). -/
def stats_msg_items (renderTable : List (List String) → String) (guid : String)
    (s : AnsibleStats) : List String :=
  ["*Playbook Complete* (_" ++ guid ++ "_)"]
    ++ (if stats_failed s then ["\n*Failed!*"] else ["\n*Success!*"])
    ++ ["```\n" ++ renderTable (stats_rows s) ++ "\n```"]

/-- Line 268: the composed stats message. -/
def stats_msg (renderTable : List (List String) → String) (guid : String)
    (s : AnsibleStats) : String :=
  pyJoin "\n" (stats_msg_items renderTable guid s)

/-- Lines 270-279: the single stats attachment. -/
def stats_attachments (renderTable : List (List String) → String) (guid : String)
    (s : AnsibleStats) : List Attachment :=
  let msg := stats_msg renderTable guid s
  [{ fallback := msg
     text := none
     fields := some [{ value := msg }]
     color := stats_color s
     mrkdwn_in := ["text", "fallback", "fields"] }]

def v2_playbook_on_stats (ext : Externals) (st : CallbackModule) (s : AnsibleStats) :
    CallbackModule × List Attachment :=
  (st, stats_attachments ext.renderTable st.guid s)

/-! ### Event dispatch -/

/-- One event handler run followed by its `send_msg` call. -/
def on_event (ext : Externals) (st : CallbackModule) : Event → Except String EventResult
  | Event.runStart f ca =>
      let (st', atts) := v2_playbook_on_start ext st f ca
      (send_msg ext st' atts).map fun o =>
        { st := st', attachments := atts, warnings := o.warnings, requests := o.requests }
  | Event.playStart n u =>
      let (st', atts) := v2_playbook_on_play_start st n u
      (send_msg ext st' atts).map fun o =>
        { st := st', attachments := atts, warnings := o.warnings, requests := o.requests }
  | Event.stats s =>
      let (st', atts) := v2_playbook_on_stats ext st s
      (send_msg ext st' atts).map fun o =>
        { st := st', attachments := atts, warnings := o.warnings, requests := o.requests }

/-- Modelled from the spec: the host orchestrator's event dispatch is not
part of the repository; per the spec each hook is "skipped entirely if the
adapter is disabled", so a disabled plugin's event is a no-op with no
message, no warning and no request. -/
def dispatch (ext : Externals) (st : CallbackModule) (e : Event) :
    Except String EventResult :=
  if st.disabled then
    Except.ok { st := st, attachments := [], warnings := [], requests := [] }
  else
    on_event ext st e

/-- Runs a whole event trace, accumulating every attachment produced. -/
def runEvents (ext : Externals) (st : CallbackModule) :
    List Event → Except String (CallbackModule × List Attachment)
  | [] => Except.ok (st, [])
  | e :: es =>
      match dispatch ext st e with
      | Except.error err => Except.error err
      | Except.ok r =>
          match runEvents ext r.st es with
          | Except.error err => Except.error err
          | Except.ok (st', atts) => Except.ok (st', r.attachments ++ atts)

/-! ### Concrete inputs used by witnesses and counterexamples -/

/-- Options with the webhook URL resolved to Python `None`. -/
def optsNone : Options :=
  { webhook_url := none, channel := "", username := "ansible",
    icon_url := "", icon_emoji := "", validate_certs := true }

/-- Options with the webhook URL resolved to the empty string. -/
def optsEmptyUrl : Options :=
  { webhook_url := some "", channel := "", username := "ansible",
    icon_url := "", icon_emoji := "", validate_certs := true }

/-- Options with a normal webhook URL. -/
def optsUrl : Options :=
  { webhook_url := some "https://rc.example/hook", channel := "", username := "ansible",
    icon_url := "", icon_emoji := "", validate_certs := true }

/-- Externals whose serialization and HTTP calls succeed. -/
def extOk : Externals :=
  { dumps := fun _ => Except.ok "x", openUrl := fun _ => Except.ok "x",
    basename := fun s => s, abspath := fun s => s, renderTable := fun _ => "" }

/-- Externals whose HTTP call fails (a network failure). -/
def extFail : Externals :=
  { dumps := fun _ => Except.ok "x",
    openUrl := fun _ => Except.error "connection refused",
    basename := fun s => s, abspath := fun s => s, renderTable := fun _ => "" }

/-- Externals whose serialization raises (Python `json.dumps` raising
`TypeError`). -/
def extBadDumps : Externals :=
  { dumps := fun _ => Except.error "TypeError: payload is not JSON serializable",
    openUrl := fun _ => Except.ok "x",
    basename := fun s => s, abspath := fun s => s, renderTable := fun _ => "" }

/-- An enabled, fully configured plugin state. -/
def stW : CallbackModule :=
  { disabled := false, playbook_name := none, guid := "abc123",
    webhook_url := some "https://rc.example/hook", channel := "", username := "ansible",
    show_invocation := false, validate_certs := true, icon_emoji := "", icon_url := "" }

/-- The same state with certificate validation configured off. -/
def stNoVerify : CallbackModule := { stW with validate_certs := false }

/-- CLI arguments that are all empty or absent. -/
def cliargsEmptyInv : CLIArgs :=
  { tags := [], skip_tags := [], extra_vars := [], subset := "",
    inventory := [], remote_user := none }

/-- CLI arguments with one inventory path and a known remote user. -/
def cliargsC7 : CLIArgs :=
  { tags := [], skip_tags := [], extra_vars := [], subset := "",
    inventory := ["deploy.ini"], remote_user := some "root" }

/-- A concrete per-host summary table for the stats witnesses. -/
def summarizeW : String → Summary := fun h =>
  if h = "a" then
    { ok := 1, changed := 0, unreachable := 0, failures := 1, rescued := 0, ignored := 0 }
  else
    { ok := 2, changed := 1, unreachable := 0, failures := 0, rescued := 0, ignored := 0 }

/-- A stats object whose hosts arrive out of order. -/
def statsA : AnsibleStats := { processed := ["b", "a"], summarize := summarizeW }

/-- The same stats object with the hosts in the other order. -/
def statsB : AnsibleStats := { processed := ["a", "b"], summarize := summarizeW }

/-! ### String helpers for the theorems -/

/-- The strings are equal as character lists (String is a list of chars). -/
theorem str_data_append (a b : String) : (a ++ b).data = a.data ++ b.data := rfl

theorem str_ext {a b : String} (h : a.data = b.data) : a = b := by
  cases a; cases b; exact congrArg String.mk h

theorem str_append_assoc (a b c : String) : a ++ b ++ c = a ++ (b ++ c) :=
  str_ext (by simp [str_data_append])

/-- The substring `sub` occurs somewhere in `s`. -/
def StrContains (s sub : String) : Prop := ∃ a b, s = a ++ sub ++ b

/-- The string `s` ends with `p`. -/
def StrEndsWith (s p : String) : Prop := ∃ a, s = a ++ p

/-- First character of a string, if any. -/
def firstChar (s : String) : Option Char := s.data.head?

theorem firstChar_append (a b : String) (h : a.data ≠ []) :
    firstChar (a ++ b) = firstChar a := by
  obtain ⟨c, t, h'⟩ := List.exists_cons_of_ne_nil h
  simp [firstChar, str_data_append, h']

theorem ne_of_firstChar_ne {a b : String} (h : firstChar a ≠ firstChar b) :
    a ≠ b := fun he => h (he ▸ rfl)

/-- Two label-prefixed lines with different first characters differ,
whatever their payloads. -/
theorem ne_append_of_head {a b : String} (ha : a.data ≠ []) (hb : b.data ≠ [])
    (h : firstChar a ≠ firstChar b) (x y : String) : a ++ x ≠ b ++ y := by
  intro he
  apply h
  rw [← firstChar_append a x ha, ← firstChar_append b y hb, he]

theorem str_empty_append (a : String) : "" ++ a = a :=
  str_ext (by rw [str_data_append]; rfl)

theorem firstChar_append2 (a x y : String) (h : a.data ≠ []) :
    firstChar (a ++ x ++ y) = firstChar a := by
  have hax : (a ++ x).data ≠ [] := by
    rw [str_data_append]
    intro he
    exact h (List.append_eq_nil.mp he).1
  rw [firstChar_append (a ++ x) y hax, firstChar_append a x h]

/-- Two doubly-appended lines with different leading literals differ. -/
theorem ne_line2 {a b : String} (x y u v : String) (ha : a.data ≠ [])
    (hb : b.data ≠ []) (h : firstChar a ≠ firstChar b) :
    a ++ x ++ y ≠ b ++ u ++ v := by
  apply ne_of_firstChar_ne
  rw [firstChar_append2 a x y ha, firstChar_append2 b u v hb]
  exact h

theorem strContains_base (a sub b : String) : StrContains (a ++ sub ++ b) sub :=
  ⟨a, b, rfl⟩

theorem strContains_appR (s x sub : String) (h : StrContains s sub) :
    StrContains (s ++ x) sub := by
  obtain ⟨a, b, rfl⟩ := h
  exact ⟨a, b ++ x, by rw [str_append_assoc]⟩

theorem strContains_appL (x s sub : String) (h : StrContains s sub) :
    StrContains (x ++ s) sub := by
  obtain ⟨a, b, rfl⟩ := h
  exact ⟨x ++ a, b, by rw [str_append_assoc, str_append_assoc, str_append_assoc]⟩

/-- A substring of the first joined element is a substring of the join. -/
theorem strContains_pyJoin_head (sep a : String) (l : List String) (sub : String)
    (h : StrContains a sub) : StrContains (pyJoin sep (a :: l)) sub := by
  cases l with
  | nil => simpa [pyJoin] using h
  | cons b t => exact strContains_appR _ _ _ (strContains_appR _ _ _ h)

theorem strEndsWith_trans {s p q : String} (h1 : StrEndsWith s p)
    (h2 : StrEndsWith p q) : StrEndsWith s q := by
  obtain ⟨a, rfl⟩ := h1
  obtain ⟨b, rfl⟩ := h2
  exact ⟨a ++ b, (str_append_assoc a b q).symm⟩

/-- A join ends with its last element. -/
theorem strEndsWith_pyJoin (sep : String) :
    ∀ (l : List String) (a : String), StrEndsWith (pyJoin sep (l ++ [a])) a
  | [], a => ⟨"", (str_empty_append a).symm⟩
  | [x], a => ⟨x ++ sep, rfl⟩
  | x :: y :: t, a => by
      obtain ⟨w, hw⟩ := strEndsWith_pyJoin sep (y :: t) a
      refine ⟨x ++ sep ++ w, ?_⟩
      show x ++ sep ++ pyJoin sep ((y :: t) ++ [a]) = x ++ sep ++ w ++ a
      rw [hw, str_append_assoc (x ++ sep) w a]

/-! ### Lemmas about the stats computation -/

theorem foldl_or_pair (p q : String → Bool) :
    ∀ (l : List String) (b : Bool × Bool),
      l.foldl (fun fl h => (fl.1 || p h, fl.2 || q h)) b = (b.1 || l.any p, b.2 || l.any q)
  | [], b => by simp
  | x :: t, b => by
      rw [List.foldl_cons, foldl_or_pair p q t]
      simp [Bool.or_assoc]

theorem stats_flags_eq (s : AnsibleStats) :
    stats_flags s =
      ((stats_hosts s).any fun h => decide (0 < (s.summarize h).failures),
       (stats_hosts s).any fun h => decide (0 < (s.summarize h).unreachable)) := by
  rw [stats_flags, foldl_or_pair]
  simp

/-- The loop's `failures or unreachable` flag is exactly "some processed
host has a failure or an unreachable count". -/
theorem stats_failed_iff (s : AnsibleStats) :
    stats_failed s = true ↔
      ∃ h ∈ s.processed,
        0 < (s.summarize h).failures ∨ 0 < (s.summarize h).unreachable := by
  have hperm : List.Perm (stats_hosts s) s.processed :=
    List.perm_insertionSort (· ≤ ·) s.processed
  rw [stats_failed, stats_flags_eq]
  simp only [Bool.or_eq_true, List.any_eq_true, decide_eq_true_eq]
  constructor
  · rintro (⟨x, hx, hp⟩ | ⟨x, hx, hp⟩)
    exacts [⟨x, hperm.mem_iff.mp hx, Or.inl hp⟩, ⟨x, hperm.mem_iff.mp hx, Or.inr hp⟩]
  · rintro ⟨x, hx, hp | hp⟩
    exacts [Or.inl ⟨x, hperm.mem_iff.mpr hx, hp⟩, Or.inr ⟨x, hperm.mem_iff.mpr hx, hp⟩]

theorem mem_ite_singleton {α : Type} {a b : α} {P : Prop} [Decidable P] :
    (a ∈ if P then [b] else []) ↔ (P ∧ a = b) := by
  split <;> simp_all

theorem ite_singleton_sublist {α : Type} (P : Prop) [Decidable P] (x : α) :
    List.Sublist (if P then [x] else []) [x] := by
  split
  · exact List.Sublist.refl _
  · exact List.nil_sublist _

/-- Membership in the invocation block, line by line. -/
theorem mem_invocation_items (abspath : String → String) (c : CLIArgs) (a : String) :
    a ∈ invocation_items abspath c ↔
      a = "Inventory:  " ++ pyJoin ", " (c.inventory.map abspath)
      ∨ ((c.tags ≠ [] ∧ c.tags ≠ ["all"]) ∧ a = "Tags:       " ++ pyJoin ", " c.tags)
      ∨ (c.skip_tags ≠ [] ∧ a = "Skip Tags:  " ++ pyJoin ", " c.skip_tags)
      ∨ (c.subset ≠ "" ∧ a = "Limit:      " ++ c.subset)
      ∨ (c.extra_vars ≠ [] ∧ a = "Extra Vars: " ++ pyJoin " " c.extra_vars) := by
  simp [invocation_items, mem_ite_singleton, or_assoc]

/-! ### Claim theorems -/

/-- C2: the stats message has color "danger" and header line "Failed!"
exactly when some host row has failures > 0 or unreachable > 0, and color
"good" with header line "Success!" otherwise. -/
theorem C2_theorem (renderTable : List (List String) → String) (guid : String)
    (s : AnsibleStats) :
    ((stats_color s = "danger" ∧
        (stats_msg_items renderTable guid s).get? 1 = some "\n*Failed!*") ↔
      ∃ h ∈ s.processed,
        0 < (s.summarize h).failures ∨ 0 < (s.summarize h).unreachable)
  ∧ ((stats_color s = "good" ∧
        (stats_msg_items renderTable guid s).get? 1 = some "\n*Success!*") ↔
      ¬ ∃ h ∈ s.processed,
          0 < (s.summarize h).failures ∨ 0 < (s.summarize h).unreachable) := by
  rw [← stats_failed_iff]
  by_cases hf : stats_failed s
  · simp [stats_color, stats_msg_items, hf]
  · simp only [Bool.not_eq_true] at hf
    simp [stats_color, stats_msg_items, hf]

/-- C3: the rendered stats table has one row per processed host, its rows
are sorted lexicographically ascending by host name, and the rows do not
depend on the order in which the hosts appear in the input. -/
theorem C3_theorem (s s' : AnsibleStats) (hp : List.Perm s'.processed s.processed)
    (hs : s'.summarize = s.summarize) :
    List.Sorted (· ≤ ·) ((stats_rows s).map fun r => r.headD "")
  ∧ List.Perm ((stats_rows s).map fun r => r.headD "") s.processed
  ∧ stats_rows s' = stats_rows s := by
  have hmap : ((stats_rows s).map fun r => r.headD "") = stats_hosts s := by
    rw [stats_rows, List.map_map]
    exact List.map_id'' (fun h => rfl) (stats_hosts s)
  have hsorted : ∀ t : AnsibleStats, List.Sorted (· ≤ ·) (stats_hosts t) :=
    fun t => List.sorted_insertionSort (· ≤ ·) t.processed
  have hhosts : stats_hosts s' = stats_hosts s :=
    List.eq_of_perm_of_sorted
      (((List.perm_insertionSort (· ≤ ·) s'.processed).trans hp).trans
        (List.perm_insertionSort (· ≤ ·) s.processed).symm)
      (hsorted s') (hsorted s)
  refine ⟨hmap ▸ hsorted s, ?_, ?_⟩
  · rw [hmap]
    exact List.perm_insertionSort (· ≤ ·) s.processed
  · rw [stats_rows, stats_rows, hhosts, hs]

/-- C10: each event sends exactly one attachment; the run-start and stats
attachments carry the composed text only in `fields[0].value` (no `text`
key), the play-start attachment only in `text` (no `fields` key), and
every attachment has `mrkdwn_in = [text, fallback, fields]`. -/
theorem C10_theorem (abspath : String → String) (guid : String) (si : Bool)
    (ca : Option CLIArgs) (name pn pu : String)
    (renderTable : List (List String) → String) (s : AnsibleStats) :
    ((run_start_attachments abspath guid si ca name).length = 1
      ∧ ∀ a ∈ run_start_attachments abspath guid si ca name,
          a.text = none ∧ a.fields = some [{ value := a.fallback }]
            ∧ a.mrkdwn_in = ["text", "fallback", "fields"])
  ∧ ((play_start_attachments guid pn pu).length = 1
      ∧ ∀ a ∈ play_start_attachments guid pn pu,
          a.fields = none ∧ a.text = some a.fallback
            ∧ a.mrkdwn_in = ["text", "fallback", "fields"])
  ∧ ((stats_attachments renderTable guid s).length = 1
      ∧ ∀ a ∈ stats_attachments renderTable guid s,
          a.text = none ∧ a.fields = some [{ value := a.fallback }]
            ∧ a.mrkdwn_in = ["text", "fallback", "fields"]) := by
  refine ⟨⟨rfl, ?_⟩, ⟨rfl, ?_⟩, ⟨rfl, ?_⟩⟩ <;>
    · intro a ha
      simp only [run_start_attachments, play_start_attachments, stats_attachments,
        List.mem_singleton] at ha
      subst ha
      exact ⟨rfl, rfl, rfl⟩

/-- C3 witness: hosts arriving as ["b", "a"] render sorted, one row per
host, and the reordered input ["a", "b"] renders the same rows. -/
theorem C3_witness :
    List.Sorted (· ≤ ·) ((stats_rows statsA).map fun r => r.headD "")
  ∧ List.Perm ((stats_rows statsA).map fun r => r.headD "") statsA.processed
  ∧ stats_rows statsB = stats_rows statsA :=
  C3_theorem statsA statsB (List.Perm.swap "b" "a" []) rfl

/-- C6 (amended): within the invocation block the Inventory line is always
first and always present (even for an empty inventory); the Tags line is
present iff tags are nonempty and not exactly ["all"]; the Skip Tags,
Limit and Extra Vars lines are present iff their inputs are nonempty, each
independently of the others; and present lines keep the fixed order
Inventory, Tags, Skip Tags, Limit, Extra Vars. -/
theorem C6_theorem (abspath : String → String) (c : CLIArgs) :
    (invocation_items abspath c).head? =
        some ("Inventory:  " ++ pyJoin ", " (c.inventory.map abspath))
  ∧ (("Tags:       " ++ pyJoin ", " c.tags) ∈ invocation_items abspath c
        ↔ (c.tags ≠ [] ∧ c.tags ≠ ["all"]))
  ∧ (("Skip Tags:  " ++ pyJoin ", " c.skip_tags) ∈ invocation_items abspath c
        ↔ c.skip_tags ≠ [])
  ∧ (("Limit:      " ++ c.subset) ∈ invocation_items abspath c ↔ c.subset ≠ "")
  ∧ (("Extra Vars: " ++ pyJoin " " c.extra_vars) ∈ invocation_items abspath c
        ↔ c.extra_vars ≠ [])
  ∧ List.Sublist (invocation_items abspath c)
      ["Inventory:  " ++ pyJoin ", " (c.inventory.map abspath),
       "Tags:       " ++ pyJoin ", " c.tags,
       "Skip Tags:  " ++ pyJoin ", " c.skip_tags,
       "Limit:      " ++ c.subset,
       "Extra Vars: " ++ pyJoin " " c.extra_vars] := by
  have nTI : ∀ x y : String, "Tags:       " ++ x ≠ "Inventory:  " ++ y :=
    fun x y => ne_append_of_head (by decide) (by decide) (by decide) x y
  have nTS : ∀ x y : String, "Tags:       " ++ x ≠ "Skip Tags:  " ++ y :=
    fun x y => ne_append_of_head (by decide) (by decide) (by decide) x y
  have nTL : ∀ x y : String, "Tags:       " ++ x ≠ "Limit:      " ++ y :=
    fun x y => ne_append_of_head (by decide) (by decide) (by decide) x y
  have nTE : ∀ x y : String, "Tags:       " ++ x ≠ "Extra Vars: " ++ y :=
    fun x y => ne_append_of_head (by decide) (by decide) (by decide) x y
  have nSI : ∀ x y : String, "Skip Tags:  " ++ x ≠ "Inventory:  " ++ y :=
    fun x y => ne_append_of_head (by decide) (by decide) (by decide) x y
  have nST : ∀ x y : String, "Skip Tags:  " ++ x ≠ "Tags:       " ++ y :=
    fun x y => ne_append_of_head (by decide) (by decide) (by decide) x y
  have nSL : ∀ x y : String, "Skip Tags:  " ++ x ≠ "Limit:      " ++ y :=
    fun x y => ne_append_of_head (by decide) (by decide) (by decide) x y
  have nSE : ∀ x y : String, "Skip Tags:  " ++ x ≠ "Extra Vars: " ++ y :=
    fun x y => ne_append_of_head (by decide) (by decide) (by decide) x y
  have nLI : ∀ x y : String, "Limit:      " ++ x ≠ "Inventory:  " ++ y :=
    fun x y => ne_append_of_head (by decide) (by decide) (by decide) x y
  have nLT : ∀ x y : String, "Limit:      " ++ x ≠ "Tags:       " ++ y :=
    fun x y => ne_append_of_head (by decide) (by decide) (by decide) x y
  have nLS : ∀ x y : String, "Limit:      " ++ x ≠ "Skip Tags:  " ++ y :=
    fun x y => ne_append_of_head (by decide) (by decide) (by decide) x y
  have nLE : ∀ x y : String, "Limit:      " ++ x ≠ "Extra Vars: " ++ y :=
    fun x y => ne_append_of_head (by decide) (by decide) (by decide) x y
  have nEI : ∀ x y : String, "Extra Vars: " ++ x ≠ "Inventory:  " ++ y :=
    fun x y => ne_append_of_head (by decide) (by decide) (by decide) x y
  have nET : ∀ x y : String, "Extra Vars: " ++ x ≠ "Tags:       " ++ y :=
    fun x y => ne_append_of_head (by decide) (by decide) (by decide) x y
  have nES : ∀ x y : String, "Extra Vars: " ++ x ≠ "Skip Tags:  " ++ y :=
    fun x y => ne_append_of_head (by decide) (by decide) (by decide) x y
  have nEL : ∀ x y : String, "Extra Vars: " ++ x ≠ "Limit:      " ++ y :=
    fun x y => ne_append_of_head (by decide) (by decide) (by decide) x y
  refine ⟨?_, ?_, ?_, ?_, ?_, ?_⟩
  · simp [invocation_items]
  · rw [mem_invocation_items]
    simp [nTI, nTS, nTL, nTE]
  · rw [mem_invocation_items]
    simp [nSI, nST, nSL, nSE]
  · rw [mem_invocation_items]
    simp [nLI, nLT, nLS, nLE]
  · rw [mem_invocation_items]
    simp [nEI, nET, nES, nEL]
  · have h : List.Sublist (invocation_items abspath c)
        (["Inventory:  " ++ pyJoin ", " (c.inventory.map abspath)]
          ++ ["Tags:       " ++ pyJoin ", " c.tags]
          ++ ["Skip Tags:  " ++ pyJoin ", " c.skip_tags]
          ++ ["Limit:      " ++ c.subset]
          ++ ["Extra Vars: " ++ pyJoin " " c.extra_vars]) := by
      rw [invocation_items]
      exact List.Sublist.append
        (List.Sublist.append
          (List.Sublist.append
            (List.Sublist.append (List.Sublist.refl _) (ite_singleton_sublist _ _))
            (ite_singleton_sublist _ _))
          (ite_singleton_sublist _ _))
        (ite_singleton_sublist _ _)
    simpa using h

/-- C6 counterexample: with an empty inventory list the Inventory line is
still rendered (as the bare label), so the claim that each of the five
optional lines is omitted when its input is empty fails for Inventory. -/
theorem C6_counterexample :
    cliargsEmptyInv.inventory = []
  ∧ invocation_items (fun s => s) cliargsEmptyInv = ["Inventory:  "] := by
  exact ⟨rfl, by decide⟩

/-- C8 (amended): the title starts with "*Playbook initiated* (_<id>_)";
when CLIARGS are present the "by *<remote_user>*" element is in the title
iff invocation details are requested (`show_invocation`), with an unknown
remote user rendered as "None"; without CLIARGS the title is only the
initiated line and the playbook line. -/
theorem C8_theorem (guid : String) (si : Bool) (c : CLIArgs) (name : String) :
    (run_start_title guid si (some c) name).head? =
        some ("*Playbook initiated* (_" ++ guid ++ "_)")
  ∧ (("by *" ++ pyStr c.remote_user ++ "*") ∈ run_start_title guid si (some c) name
        ↔ si = true)
  ∧ run_start_title guid si none name =
      ["*Playbook initiated* (_" ++ guid ++ "_)", "\n\n*" ++ name ++ "*"] := by
  have nBI : ("by *" ++ pyStr c.remote_user ++ "*")
      ≠ ("*Playbook initiated* (_" ++ guid ++ "_)") :=
    ne_line2 _ _ _ _ (by decide) (by decide) (by decide)
  have nBL : ("by *" ++ pyStr c.remote_user ++ "*") ≠ ("\n\n*" ++ name ++ "*") :=
    ne_line2 _ _ _ _ (by decide) (by decide) (by decide)
  refine ⟨?_, ?_, ?_⟩
  · cases si <;> simp [run_start_title]
  · cases si <;> simp [run_start_title, nBI, nBL]
  · simp [run_start_title]

/-- C8 counterexample: with invocation details requested and
`remote_user = None`, the title still gets a "by" element, rendered
"by *None*" — the suffix is not absent when no remote user is known. -/
theorem C8_counterexample :
    cliargsEmptyInv.remote_user = none
  ∧ run_start_title "abc123" true (some cliargsEmptyInv) "site.yml" =
      ["*Playbook initiated* (_abc123_)", "by *None*", "\n\n*site.yml*"] :=
  ⟨rfl, by decide⟩

/-- C7 (amended): the run-start message ends with the playbook name as a
bold line exactly when no invocation block is rendered; when the block is
rendered it is appended after the playbook line, so the message ends with
the closing code fence instead. -/
theorem C7_theorem (abspath : String → String) (guid : String) (si : Bool)
    (ca : Option CLIArgs) (name : String) :
    (run_start_invocation abspath si ca = [] →
        StrEndsWith (run_start_msg abspath guid si ca name) ("*" ++ name ++ "*"))
  ∧ (run_start_invocation abspath si ca ≠ [] →
        StrEndsWith (run_start_msg abspath guid si ca name) "```") := by
  constructor
  · intro h
    rw [run_start_msg]
    simp only [h, if_pos, List.append_nil]
    have h1 : StrEndsWith (pyJoin " " (run_start_title guid si ca name))
        ("\n\n*" ++ name ++ "*") := by
      rw [run_start_title.eq_def]
      exact strEndsWith_pyJoin " " _ _
    have h2 : StrEndsWith ("\n\n*" ++ name ++ "*") ("*" ++ name ++ "*") := by
      refine ⟨"\n\n", ?_⟩
      rw [show ("\n\n*" : String) = "\n\n" ++ "*" by decide,
        str_append_assoc "\n\n" "*" name,
        str_append_assoc "\n\n" ("*" ++ name) "*"]
    have h3 := strEndsWith_trans h1 h2
    show StrEndsWith (pyJoin "\n" [pyJoin " " (run_start_title guid si ca name)]) _
    simpa [pyJoin] using h3
  · intro h
    rw [run_start_msg]
    simp only [if_neg h]
    have h1 : StrEndsWith
        (pyJoin "\n" ([pyJoin " " (run_start_title guid si ca name)]
          ++ ["```\n" ++ pyJoin "\n" (run_start_invocation abspath si ca) ++ "\n```"]))
        ("```\n" ++ pyJoin "\n" (run_start_invocation abspath si ca) ++ "\n```") :=
      strEndsWith_pyJoin "\n" _ _
    have h2 : StrEndsWith
        ("```\n" ++ pyJoin "\n" (run_start_invocation abspath si ca) ++ "\n```")
        "```" := by
      refine ⟨("```\n" ++ pyJoin "\n" (run_start_invocation abspath si ca)) ++ "\n", ?_⟩
      rw [show ("\n```" : String) = "\n" ++ "```" by decide, ← str_append_assoc]
    exact strEndsWith_trans h1 h2

/-- C7 witness: a run without a block ends in the bold playbook name; a
run with a block ends in the closing code fence. -/
theorem C7_witness :
    StrEndsWith (run_start_msg (fun s => s) "abc123" false none "site.yml")
        ("*" ++ "site.yml" ++ "*")
  ∧ StrEndsWith (run_start_msg (fun s => s) "abc123" true (some cliargsC7) "site.yml")
      "```" :=
  ⟨(C7_theorem (fun s => s) "abc123" false none "site.yml").1 rfl,
   (C7_theorem (fun s => s) "abc123" true (some cliargsC7) "site.yml").2 (by decide)⟩

/-- C7 counterexample: with an invocation block included the composed
message does not end with the bold playbook name — its last character is
the code fence's backtick. -/
theorem C7_counterexample :
    run_start_invocation (fun s => s) true (some cliargsC7) ≠ []
  ∧ ¬ StrEndsWith (run_start_msg (fun s => s) "abc123" true (some cliargsC7) "site.yml")
      ("*" ++ "site.yml" ++ "*") := by
  refine ⟨by decide, ?_⟩
  rintro ⟨a, ha⟩
  have h1 : (run_start_msg (fun s => s) "abc123" true (some cliargsC7)
      "site.yml").data.getLast? = some (Char.ofNat 96) := by decide
  rw [ha, str_data_append,
    List.getLast?_append_of_ne_nil _ (by decide)] at h1
  exact absurd h1 (by decide)

/-- C1 (amended): when `webhook_url` resolves to Python `None` the plugin
disables itself during option resolution, that resolution emits exactly
one warning, and every subsequently dispatched event is a no-op issuing
no HTTP request. -/
theorem C1_theorem (hp : Bool) (g : String) (opts : Options) (v : Nat)
    (h : opts.webhook_url = none) :
    (set_options (init hp g).1 opts v).1.disabled = true
  ∧ (set_options (init hp g).1 opts v).2.length = 1
  ∧ ∀ (ext : Externals) (e : Event),
      dispatch ext (set_options (init hp g).1 opts v).1 e =
        Except.ok { st := (set_options (init hp g).1 opts v).1,
                    attachments := [], warnings := [], requests := [] } := by
  have hd : (set_options (init hp g).1 opts v).1.disabled = true := by
    simp [set_options, h]
  refine ⟨hd, ?_, ?_⟩
  · simp [set_options, h]
  · intro ext e
    rw [dispatch, if_pos hd]

/-- C1 witness: a concrete run with the webhook URL resolved to `None`. -/
theorem C1_witness :
    (set_options (init true "abc123").1 optsNone 0).1.disabled = true
  ∧ (set_options (init true "abc123").1 optsNone 0).2.length = 1
  ∧ dispatch extOk (set_options (init true "abc123").1 optsNone 0).1
        (Event.playStart "deploy" "uuid-1") =
      Except.ok { st := (set_options (init true "abc123").1 optsNone 0).1,
                  attachments := [], warnings := [], requests := [] } :=
  ⟨(C1_theorem true "abc123" optsNone 0 rfl).1,
   (C1_theorem true "abc123" optsNone 0 rfl).2.1,
   (C1_theorem true "abc123" optsNone 0 rfl).2.2 extOk (Event.playStart "deploy" "uuid-1")⟩

/-- C1 counterexample: when `webhook_url` resolves to the empty string the
plugin does not self-disable, emits no warning, and a dispatched event
issues one HTTP request — refuting the claim for the "empty" case. -/
theorem C1_counterexample :
    optsEmptyUrl.webhook_url = some ""
  ∧ (set_options (init true "abc123").1 optsEmptyUrl 0).1.disabled = false
  ∧ (set_options (init true "abc123").1 optsEmptyUrl 0).2 = []
  ∧ (dispatch extOk (set_options (init true "abc123").1 optsEmptyUrl 0).1
        (Event.playStart "deploy" "uuid-1")).map (fun r => r.requests.length) =
      Except.ok 1 :=
  ⟨rfl, rfl, rfl, rfl⟩

/-- C4 (amended): once the payload has serialized, `send_msg` never
raises: a network or HTTP failure of `open_url` is caught and logged as
one warning, and a success logs nothing. -/
theorem C4_theorem (ext : Externals) (st : CallbackModule) (atts : List Attachment)
    (s : String) (h : ext.dumps (mk_payload st atts) = Except.ok s) :
    ∃ o, send_msg ext st atts = Except.ok o
      ∧ ((∃ e, ext.openUrl (mk_request st s) = Except.error e) → o.warnings.length = 1)
      ∧ (∀ r, ext.openUrl (mk_request st s) = Except.ok r → o.warnings = []) := by
  rw [send_msg, h]
  dsimp only
  cases hu : ext.openUrl (mk_request st s) with
  | ok r =>
      refine ⟨_, rfl, ?_, fun r hr => rfl⟩
      rintro ⟨e, he⟩
      cases he
  | error e =>
      refine ⟨_, rfl, fun _ => rfl, ?_⟩
      intro r hr
      cases hr

/-- C4 witness: a concrete delivery whose HTTP call fails is swallowed
with one warning. -/
theorem C4_witness :
    ∃ o, send_msg extFail stW [] = Except.ok o
      ∧ ((∃ e, extFail.openUrl (mk_request stW "x") = Except.error e) →
          o.warnings.length = 1)
      ∧ (∀ r, extFail.openUrl (mk_request stW "x") = Except.ok r → o.warnings = []) :=
  C4_theorem extFail stW [] "x" rfl

/-- C4 counterexample: a serialization failure happens before the
`try` block, so the exception propagates out of `send_msg` instead of
being logged — refuting "no exception ever propagates out of deliver". -/
theorem C4_counterexample :
    send_msg extBadDumps stW [] =
      Except.error "TypeError: payload is not JSON serializable" := rfl

/-- C5: every delivery issues exactly one HTTP POST to the configured
webhook URL with the JSON content-type header, but the request always has
`validate_certs = true` — the configured option is never passed to
`open_url`, so it is not honored. -/
theorem C5_theorem (ext : Externals) (st : CallbackModule) (atts : List Attachment)
    (s : String) (h : ext.dumps (mk_payload st atts) = Except.ok s) :
    ∃ o, send_msg ext st atts = Except.ok o
      ∧ o.requests = [mk_request st s]
      ∧ (mk_request st s).url = st.webhook_url
      ∧ (mk_request st s).method = "POST"
      ∧ (mk_request st s).headers = [("Content-type", "application/json")]
      ∧ (mk_request st s).validate_certs = true := by
  rw [send_msg, h]
  dsimp only
  cases hu : ext.openUrl (mk_request st s) with
  | ok r => exact ⟨_, rfl, rfl, rfl, rfl, rfl, rfl⟩
  | error e => exact ⟨_, rfl, rfl, rfl, rfl, rfl, rfl⟩

/-- C5 witness: with `validate_certs` configured off, the issued request
still has `validate_certs = true`. -/
theorem C5_witness :
    stNoVerify.validate_certs = false
  ∧ ∃ o, send_msg extOk stNoVerify [] = Except.ok o
      ∧ o.requests = [mk_request stNoVerify "x"]
      ∧ (mk_request stNoVerify "x").url = stNoVerify.webhook_url
      ∧ (mk_request stNoVerify "x").method = "POST"
      ∧ (mk_request stNoVerify "x").headers = [("Content-type", "application/json")]
      ∧ (mk_request stNoVerify "x").validate_certs = true :=
  ⟨rfl, C5_theorem extOk stNoVerify [] "x" rfl⟩

/-! ### Correlation-id lemmas (C9) -/

theorem runstart_contains (abspath : String → String) (guid : String) (si : Bool)
    (ca : Option CLIArgs) (name : String) :
    StrContains (run_start_msg abspath guid si ca name) guid := by
  simp only [run_start_msg, run_start_title.eq_def, List.singleton_append,
    List.cons_append, List.append_assoc]
  apply strContains_pyJoin_head
  apply strContains_pyJoin_head
  exact strContains_base _ _ _

theorem play_contains (guid name uuid : String) :
    StrContains (play_start_msg guid name uuid) guid := by
  simp only [play_start_msg]
  exact strContains_appR _ _ _ (strContains_appR _ _ _ (strContains_base _ _ _))

theorem stats_contains (renderTable : List (List String) → String) (guid : String)
    (s : AnsibleStats) : StrContains (stats_msg renderTable guid s) guid := by
  simp only [stats_msg, stats_msg_items, List.singleton_append, List.cons_append,
    List.append_assoc]
  apply strContains_pyJoin_head
  exact strContains_base _ _ _

theorem except_map_ok {α β γ : Type} (f : β → γ) (x : Except α β) (r : γ)
    (h : x.map f = Except.ok r) : ∃ b, x = Except.ok b ∧ r = f b := by
  cases x with
  | error e => simp [Except.map] at h
  | ok b =>
      refine ⟨b, rfl, ?_⟩
      simp only [Except.map] at h
      cases h
      rfl

/-- One handled event keeps the guid and puts it into every message. -/
theorem on_event_guid (ext : Externals) (st : CallbackModule) (e : Event)
    (r : EventResult) (h : on_event ext st e = Except.ok r) :
    r.st.guid = st.guid ∧ ∀ a ∈ r.attachments, StrContains a.fallback st.guid := by
  cases e with
  | runStart f ca =>
      simp only [on_event, v2_playbook_on_start] at h
      obtain ⟨b, hb, hr⟩ := except_map_ok _ _ _ h
      subst hr
      refine ⟨rfl, ?_⟩
      intro a ha
      simp only [run_start_attachments, List.mem_singleton] at ha
      subst ha
      exact runstart_contains _ _ _ _ _
  | playStart n u =>
      simp only [on_event, v2_playbook_on_play_start] at h
      obtain ⟨b, hb, hr⟩ := except_map_ok _ _ _ h
      subst hr
      refine ⟨rfl, ?_⟩
      intro a ha
      simp only [play_start_attachments, List.mem_singleton] at ha
      subst ha
      exact play_contains _ _ _
  | stats s =>
      simp only [on_event, v2_playbook_on_stats] at h
      obtain ⟨b, hb, hr⟩ := except_map_ok _ _ _ h
      subst hr
      refine ⟨rfl, ?_⟩
      intro a ha
      simp only [stats_attachments, List.mem_singleton] at ha
      subst ha
      exact stats_contains _ _ _

theorem dispatch_guid (ext : Externals) (st : CallbackModule) (e : Event)
    (r : EventResult) (h : dispatch ext st e = Except.ok r) :
    r.st.guid = st.guid ∧ ∀ a ∈ r.attachments, StrContains a.fallback st.guid := by
  rw [dispatch] at h
  split at h
  · injection h with h'
    subst h'
    exact ⟨rfl, fun a ha => absurd ha (List.not_mem_nil a)⟩
  · exact on_event_guid ext st e r h

/-- A whole trace keeps the guid and embeds it in every attachment. -/
theorem runEvents_guid (ext : Externals) :
    ∀ (es : List Event) (st st' : CallbackModule) (atts : List Attachment),
      runEvents ext st es = Except.ok (st', atts) →
        st'.guid = st.guid ∧ ∀ a ∈ atts, StrContains a.fallback st.guid
  | [], st, st', atts, h => by
      rw [runEvents] at h
      injection h with h'
      have h1 : st = st' := congrArg Prod.fst h'
      have h2 : ([] : List Attachment) = atts := congrArg Prod.snd h'
      subst h2
      exact ⟨by rw [← h1], fun a ha => absurd ha (List.not_mem_nil a)⟩
  | e :: es, st, st', atts, h => by
      rw [runEvents] at h
      split at h
      · exact absurd h (by simp)
      · rename_i r hd
        split at h
        · exact absurd h (by simp)
        · rename_i st2 atts2 hr
          injection h with h'
          have h1 : st2 = st' := congrArg Prod.fst h'
          have h2 : r.attachments ++ atts2 = atts := congrArg Prod.snd h'
          subst h1
          subst h2
          have ih := runEvents_guid ext es r.st st2 atts2 hr
          have hdg := dispatch_guid ext st e r hd
          refine ⟨ih.1.trans hdg.1, ?_⟩
          intro a ha
          rcases List.mem_append.mp ha with hl | hr2
          · exact hdg.2 a hl
          · have hc := ih.2 a hr2
            rwa [hdg.1] at hc

/-- C9: the correlation id is fixed at construction, survives option
resolution and every event unchanged, and every attachment of every
message produced by one instance contains it. -/
theorem C9_theorem :
    (∀ (hp : Bool) (g : String), ((init hp g).1).guid = g)
  ∧ (∀ (pre : PreState) (opts : Options) (v : Nat),
        (set_options pre opts v).1.guid = pre.guid)
  ∧ ∀ (ext : Externals) (st : CallbackModule) (es : List Event)
      (st' : CallbackModule) (atts : List Attachment),
        runEvents ext st es = Except.ok (st', atts) →
          st'.guid = st.guid ∧ ∀ a ∈ atts, StrContains a.fallback st.guid := by
  refine ⟨?_, ?_, ?_⟩
  · intro hp g
    cases hp <;> rfl
  · intro pre opts v
    cases ho : opts.webhook_url <;> simp [set_options, ho]
  · exact fun ext st es st' atts h => runEvents_guid ext es st st' atts h

/-- C9 witness: a concrete configured instance whose dispatched play-start
message carries the construction-time id "abc123". -/
theorem C9_witness :
    (set_options (init true "abc123").1 optsUrl 0).1.guid = "abc123"
  ∧ ∀ a ∈ play_start_attachments "abc123" "deploy" "uuid-1",
      StrContains a.fallback "abc123" := by
  have h := C9_theorem.2.2 extOk (set_options (init true "abc123").1 optsUrl 0).1
      [Event.playStart "deploy" "uuid-1"]
      (set_options (init true "abc123").1 optsUrl 0).1
      (play_start_attachments "abc123" "deploy" "uuid-1") rfl
  exact ⟨rfl, h.2⟩

end RocketChat
